import Mathlib

/-!
Verification of the gameplay simulation core of the "snooze" game
(keep-the-bear-asleep arcade game).

The definitions below are a shallow embedding of the TypeScript source:
numeric game quantities (meter levels, rates, durations, multipliers)
are modelled as rationals, the entity classes become state structures,
and their mutating methods become state-transition functions that also
return the notifications (events) they emit.  Source locations are given
next to each definition.
-/

namespace Snooze

/- Constants from src/utils/Constants.ts (GAMEPLAY). -/

def NOISE_INCREASE_RATE : ℚ := 15

def NOISE_DECREASE_RATE : ℚ := 8

def WAKE_METER_MAX : ℚ := 100

def TIMER_UPDATE_INTERVAL : ℚ := 100

/-! ## NoiseMeter (src/unnamed/part_008, class NoiseMeter) -/

/-- Payload of the METER_UPDATE notification emitted by
NoiseMeter.addNoise / NoiseMeter.reduceNoise. -/
structure MeterUpdateEvent where
  level : ℚ
  percentage : ℚ
  isIncreasing : Bool
deriving DecidableEq

/-- The gameplay-relevant fields of NoiseMeter.meterState. -/
structure NoiseMeterState where
  currentLevel : ℚ
  maxLevel : ℚ
deriving DecidableEq

/-- Initial meter state set in the NoiseMeter constructor:
currentLevel 0, maxLevel GAMEPLAY.WAKE_METER_MAX. -/
def NoiseMeter.init : NoiseMeterState :=
  { currentLevel := 0, maxLevel := WAKE_METER_MAX }

/-- NoiseMeter.getPercentage: currentLevel / maxLevel * 100. -/
def NoiseMeterState.percentage (s : NoiseMeterState) : ℚ :=
  s.currentLevel / s.maxLevel * 100

/-- NoiseMeter.addNoise (part_008 lines 138-154): clamps the level at
maxLevel and emits METER_UPDATE exactly when the level changed. -/
def NoiseMeter.addNoise (s : NoiseMeterState) (amount : ℚ) :
    NoiseMeterState × Option MeterUpdateEvent :=
  let s' : NoiseMeterState :=
    { s with currentLevel := min (s.currentLevel + amount) s.maxLevel }
  (s',
    if s'.currentLevel ≠ s.currentLevel then
      some { level := s'.currentLevel, percentage := s'.percentage,
             isIncreasing := true }
    else none)

/-- NoiseMeter.reduceNoise (part_008 lines 175-191): clamps the level at
0 and emits METER_UPDATE exactly when the level changed. -/
def NoiseMeter.reduceNoise (s : NoiseMeterState) (amount : ℚ) :
    NoiseMeterState × Option MeterUpdateEvent :=
  let s' : NoiseMeterState :=
    { s with currentLevel := max (s.currentLevel - amount) 0 }
  (s',
    if s'.currentLevel ≠ s.currentLevel then
      some { level := s'.currentLevel, percentage := s'.percentage,
             isIncreasing := false }
    else none)

/-- A call to one of the two meter mutators. -/
inductive MeterOp
  | add (amount : ℚ)
  | reduce (amount : ℚ)
deriving DecidableEq

def MeterOp.nonneg : MeterOp → Prop
  | .add a => 0 ≤ a
  | .reduce a => 0 ≤ a

instance : DecidablePred MeterOp.nonneg := by
  intro op
  cases op <;> simp [MeterOp.nonneg] <;> infer_instance

def NoiseMeter.applyOp (s : NoiseMeterState) : MeterOp → NoiseMeterState
  | .add a => (NoiseMeter.addNoise s a).1
  | .reduce a => (NoiseMeter.reduceNoise s a).1

/-- A round's worth of meter operations, starting from a given state. -/
def NoiseMeter.runOps (s : NoiseMeterState) (ops : List MeterOp) : NoiseMeterState :=
  ops.foldl NoiseMeter.applyOp s

/-! ## Bear (src/unnamed/part_007, class Bear) -/

/-- BearState from src/types/GameTypes.ts. -/
inductive BearState
  | SLEEPING
  | DROWSY
  | AWAKE
deriving DecidableEq

/-- The gameplay-relevant fields of Bear.bearState. -/
structure BearStateData where
  currentState : BearState
  wakeThreshold : ℚ
  currentNoise : ℚ
deriving DecidableEq

/-- Initial bear state set in the Bear constructor. -/
def Bear.init : BearStateData :=
  { currentState := .SLEEPING, wakeThreshold := WAKE_METER_MAX, currentNoise := 0 }

/-- Bear.getNoisePercentage: currentNoise / wakeThreshold * 100. -/
def BearStateData.noisePercentage (b : BearStateData) : ℚ :=
  b.currentNoise / b.wakeThreshold * 100

/-- The if/else chain of Bear.updateStateBasedOnNoise (part_007 lines
185-191), which computes the new tier from the percentage alone. -/
def Bear.tierFor (noisePercentage : ℚ) : BearState :=
  if noisePercentage ≥ 100 then .AWAKE
  else if noisePercentage ≥ 50 then .DROWSY
  else .SLEEPING

/-- Notifications emitted by a single Bear.updateStateBasedOnNoise call:
an optional BEAR_STATE_CHANGE (old, new) and a BEAR_WAKE_UP flag. -/
structure BearEvents where
  stateChange : Option (BearState × BearState)
  wakeUp : Bool
deriving DecidableEq

/-- Bear.updateStateBasedOnNoise (part_007 lines 181-213): recompute the
tier from the noise percentage; on a change, store it and emit
BEAR_STATE_CHANGE, plus BEAR_WAKE_UP when the new tier is AWAKE. -/
def Bear.updateStateBasedOnNoise (b : BearStateData) : BearStateData × BearEvents :=
  let newState := Bear.tierFor b.noisePercentage
  if newState ≠ b.currentState then
    ({ b with currentState := newState },
     { stateChange := some (b.currentState, newState),
       wakeUp := if newState = BearState.AWAKE then true else false })
  else
    (b, { stateChange := none, wakeUp := false })

/-- Bear.addNoise (part_007 lines 138-144): clamp at wakeThreshold, then
re-evaluate the state. -/
def Bear.addNoise (b : BearStateData) (amount : ℚ) : BearStateData × BearEvents :=
  Bear.updateStateBasedOnNoise
    { b with currentNoise := min (b.currentNoise + amount) b.wakeThreshold }

/-- Bear.reduceNoise (part_007 lines 149-155): clamp at 0, then
re-evaluate the state. -/
def Bear.reduceNoise (b : BearStateData) (amount : ℚ) : BearStateData × BearEvents :=
  Bear.updateStateBasedOnNoise
    { b with currentNoise := max (b.currentNoise - amount) 0 }

/-! ## Television (src/unnamed/part_007, class Television) -/

/-- TVState from src/types/GameTypes.ts. -/
inductive TVState
  | OFF
  | TURNING_ON
  | ON
  | TURNING_OFF
deriving DecidableEq

/-- The gameplay-relevant fields of Television.tvState. -/
structure TVStateData where
  currentState : TVState
  isOn : Bool
  noiseLevel : ℚ
deriving DecidableEq

/-- Initial TV state set in the Television constructor. -/
def Television.init : TVStateData :=
  { currentState := .OFF, isOn := false, noiseLevel := 0 }

/-- The four atomic TV transitions.  turnOnCall / turnOffCall are the
entry points of Television.turnOn / Television.turnOff; turnOnDone /
turnOffDone are the tween onComplete callbacks inside them, which in the
source can only run after the corresponding call put the TV in the
matching transition phase (the guard encodes that scheduling). -/
inductive TVEvent
  | turnOnCall
  | turnOnDone
  | turnOffCall
  | turnOffDone
deriving DecidableEq

/-- One transition of the TV state machine (Television.turnOn lines
424-464, Television.turnOff lines 469-502 of part_007). -/
def Television.step (tv : TVStateData) : TVEvent → TVStateData
  | .turnOnCall =>
      if tv.currentState = TVState.OFF then
        { tv with currentState := .TURNING_ON }
      else tv
  | .turnOnDone =>
      if tv.currentState = TVState.TURNING_ON then
        { tv with currentState := .ON, isOn := true,
                  noiseLevel := NOISE_INCREASE_RATE }
      else tv
  | .turnOffCall =>
      if tv.currentState = TVState.ON then
        { tv with currentState := .TURNING_OFF }
      else tv
  | .turnOffDone =>
      if tv.currentState = TVState.TURNING_OFF then
        { tv with currentState := .OFF, isOn := false, noiseLevel := 0 }
      else tv

/-- Run a sequence of TV transitions. -/
def Television.run (tv : TVStateData) (es : List TVEvent) : TVStateData :=
  es.foldl Television.step tv

/-- States of the TV state machine reachable from the constructor state. -/
inductive Television.Reachable : TVStateData → Prop
  | init : Television.Reachable Television.init
  | step (tv : TVStateData) (e : TVEvent) :
      Television.Reachable tv → Television.Reachable (Television.step tv e)

/-! ## NoiseSource (src/unnamed/part_003, class NoiseSource) -/

/-- NoiseSource.activate (part_003 lines 676-697) samples the duration
of an activation as config.duration + (Math.random() * 2000 - 1000),
i.e. the configured duration plus an absolute jitter drawn uniformly
from [-1000, 1000) milliseconds.  u stands for the Math.random sample. -/
def NoiseSource.activationDuration (configDuration : ℚ) (u : ℚ) : ℚ :=
  configDuration + (u * 2000 - 1000)

/-! ## Power-up system (src/unnamed/part_003, PowerUpManager and friends) -/

/-- PowerUpType from the level manager (src/unnamed/part_002). -/
inductive PowerUpType
  | ESPRESSO_SHOT
  | NOISE_HEADPHONES
  | WHITE_NOISE_MACHINE
  | MEDITATION_STATE
  | SOUND_SHIELD
  | WINDOW_CONTROL
deriving DecidableEq

/-- PowerUpEffect (part_003 lines 18-24); absent optional fields are
none / false. -/
structure PowerUpEffect where
  noiseReduction : Option ℚ
  noiseCancellationBoost : Option ℚ
  temporaryImmunity : Bool
  noiseSlowdown : Option ℚ
deriving DecidableEq

/-- The numeric / effect fields of PowerUpConfig (part_003 lines 7-16). -/
structure PowerUpConfig where
  type : PowerUpType
  duration : ℚ
  cooldown : ℚ
  effect : PowerUpEffect
deriving DecidableEq

/-- PowerUpManager.getPowerUpConfig with the static table from
PowerUpManager.initializePowerUpConfigs (part_003 lines 245-313). -/
def getPowerUpConfig : PowerUpType → PowerUpConfig
  | .ESPRESSO_SHOT =>
      { type := .ESPRESSO_SHOT, duration := 15000, cooldown := 30000,
        effect := { noiseReduction := none, noiseCancellationBoost := none,
                    temporaryImmunity := false, noiseSlowdown := some (1/2) } }
  | .NOISE_HEADPHONES =>
      { type := .NOISE_HEADPHONES, duration := 20000, cooldown := 45000,
        effect := { noiseReduction := some (1/4), noiseCancellationBoost := none,
                    temporaryImmunity := false, noiseSlowdown := none } }
  | .WHITE_NOISE_MACHINE =>
      { type := .WHITE_NOISE_MACHINE, duration := 12000, cooldown := 25000,
        effect := { noiseReduction := some (2/5), noiseCancellationBoost := none,
                    temporaryImmunity := false, noiseSlowdown := none } }
  | .MEDITATION_STATE =>
      { type := .MEDITATION_STATE, duration := 10000, cooldown := 35000,
        effect := { noiseReduction := none, noiseCancellationBoost := some 2,
                    temporaryImmunity := false, noiseSlowdown := none } }
  | .SOUND_SHIELD =>
      { type := .SOUND_SHIELD, duration := 8000, cooldown := 60000,
        effect := { noiseReduction := none, noiseCancellationBoost := none,
                    temporaryImmunity := true, noiseSlowdown := none } }
  | .WINDOW_CONTROL =>
      { type := .WINDOW_CONTROL, duration := 25000, cooldown := 40000,
        effect := { noiseReduction := some (2/5), noiseCancellationBoost := none,
                    temporaryImmunity := false, noiseSlowdown := none } }

/-- An ActivePowerUp instance (part_003 lines 193-228). -/
structure ActivePowerUp where
  type : PowerUpType
  config : PowerUpConfig
  remainingDuration : ℚ
  isActive : Bool
deriving DecidableEq

/-- The ActivePowerUp constructor: full configured duration, active. -/
def ActivePowerUp.mk' (t : PowerUpType) (config : PowerUpConfig) : ActivePowerUp :=
  { type := t, config := config, remainingDuration := config.duration,
    isActive := true }

/-- The activePowerUps map of PowerUpManager, modelled as an
insertion-ordered association list (JS Map iteration order). -/
structure PowerUpsState where
  activePowerUps : List (PowerUpType × ActivePowerUp)
deriving DecidableEq

def PowerUps.empty : PowerUpsState := { activePowerUps := [] }

/-- Map.has on the activePowerUps map. -/
def PowerUpsState.has (st : PowerUpsState) (t : PowerUpType) : Bool :=
  st.activePowerUps.any (fun p => p.1 = t)

/-- Payload of the POWERUP_ACTIVATED notification. -/
structure PowerUpActivatedEvent where
  type : PowerUpType
  duration : ℚ
deriving DecidableEq

/-- PowerUpManager.activatePowerUp (part_003 lines 355-371): rejected
(false, unchanged, no event) when the type is already active; otherwise
inserts a fresh ActivePowerUp with the configured duration and emits
POWERUP_ACTIVATED. -/
def PowerUps.activatePowerUp (st : PowerUpsState) (t : PowerUpType) :
    Bool × PowerUpsState × Option PowerUpActivatedEvent :=
  if st.has t then
    (false, st, none)
  else
    let config := getPowerUpConfig t
    (true,
     { activePowerUps := st.activePowerUps ++ [(t, ActivePowerUp.mk' t config)] },
     some { type := t, duration := config.duration })

/-- ActivePowerUp.update (part_003 lines 205-212): decrement the
remaining duration by delta; at ≤ 0 the instance expires. -/
def ActivePowerUp.update (ap : ActivePowerUp) (delta : ℚ) : ActivePowerUp :=
  { ap with remainingDuration := ap.remainingDuration - delta,
            isActive := if ap.remainingDuration - delta ≤ 0 then false else ap.isActive }

/-- The active-power-up part of PowerUpManager.update (part_003 lines
374-380): tick every instance, then drop the expired ones. -/
def PowerUps.tick (st : PowerUpsState) (delta : ℚ) : PowerUpsState :=
  { activePowerUps :=
      (st.activePowerUps.map (fun p => (p.1, p.2.update delta))).filter
        (fun p => p.2.isActive) }

/-- PowerUpManager.getNoiseReductionMultiplier (part_003 lines 410-420):
product of the noiseReduction factors of all active power-ups. -/
def PowerUps.getNoiseReductionMultiplier (st : PowerUpsState) : ℚ :=
  st.activePowerUps.foldl
    (fun m p => match p.2.config.effect.noiseReduction with
      | some r => m * r
      | none => m) 1

/-- PowerUpManager.getNoiseCancellationMultiplier (part_003 lines
422-432): product of the noiseCancellationBoost factors. -/
def PowerUps.getNoiseCancellationMultiplier (st : PowerUpsState) : ℚ :=
  st.activePowerUps.foldl
    (fun m p => match p.2.config.effect.noiseCancellationBoost with
      | some r => m * r
      | none => m) 1

/-- PowerUpManager.hasTemporaryImmunity (part_003 lines 434-438). -/
def PowerUps.hasTemporaryImmunity (st : PowerUpsState) : Bool :=
  st.activePowerUps.any (fun p => p.2.config.effect.temporaryImmunity)

/-! ## GameScene (src/src/scenes/GameScene.ts)

The round orchestration: the gameplay-relevant scene fields, the
synchronous event handlers wired on the event bus, the per-frame update
(GameScene.update, lines 967-1018) and the 100 ms timer callback
(GameScene.updateGameTimer, lines 425-436).  The ambient noise sources
are represented by their aggregate intensity
(NoiseSourceManager.getTotalNoiseLevel); activation-edge bookkeeping of
individual sources is kept outside the frame model. -/

/-- GameState from src/types/GameTypes.ts. -/
inductive GameState
  | PLAYING
  | PAUSED
  | VICTORY
  | GAME_OVER
deriving DecidableEq

/-- The gameplay-relevant state of GameScene. -/
structure SceneState where
  gameState : GameState
  gameTimer : ℚ
  bear : BearStateData
  noiseMeter : NoiseMeterState
  isNoiseCancelActive : Bool
  tv : TVStateData
  powerUps : PowerUpsState
  noiseIncreaseMultiplier : ℚ
  noiseDecreaseMultiplier : ℚ
  ambientTotal : ℚ
deriving DecidableEq

/-- GameScene.gameOver (lines 825-835): the round state becomes
GAME_OVER (the rest of the method is presentation). -/
def GameScene.gameOver (s : SceneState) : SceneState :=
  { s with gameState := .GAME_OVER }

/-- GameScene.victory (lines 804-820): the round state becomes VICTORY. -/
def GameScene.victory (s : SceneState) : SceneState :=
  { s with gameState := .VICTORY }

/-- GameScene.onBearWakeUp (lines 777-779) reacting to the BEAR_WAKE_UP
notification of a bear update (BEAR_STATE_CHANGE only touches stats and
text). -/
def GameScene.onBearEvents (s : SceneState) (ev : BearEvents) : SceneState :=
  if ev.wakeUp then GameScene.gameOver s else s

/-- GameScene.onMeterUpdate (lines 784-788): a METER_UPDATE carrying
percentage ≥ 100 forces game over. -/
def GameScene.onMeterUpdate (s : SceneState) (ev : Option MeterUpdateEvent) :
    SceneState :=
  match ev with
  | some e => if e.percentage ≥ 100 then GameScene.gameOver s else s
  | none => s

/-- bear.addNoise + noiseMeter.addNoise with the same amount, each
followed by its synchronously dispatched event handlers — the pattern at
GameScene.ts lines 611-612, 1004-1005 and 1015-1016. -/
def GameScene.addNoisePair (s : SceneState) (amount : ℚ) : SceneState :=
  let br := Bear.addNoise s.bear amount
  let s1 := GameScene.onBearEvents { s with bear := br.1 } br.2
  let mr := NoiseMeter.addNoise s1.noiseMeter amount
  GameScene.onMeterUpdate { s1 with noiseMeter := mr.1 } mr.2

/-- bear.reduceNoise + noiseMeter.reduceNoise with the same amount and
their handlers — the pattern at GameScene.ts lines 994-995. -/
def GameScene.reduceNoisePair (s : SceneState) (amount : ℚ) : SceneState :=
  let br := Bear.reduceNoise s.bear amount
  let s1 := GameScene.onBearEvents { s with bear := br.1 } br.2
  let mr := NoiseMeter.reduceNoise s1.noiseMeter amount
  GameScene.onMeterUpdate { s1 with noiseMeter := mr.1 } mr.2

/-- Line 971: bear.update re-evaluates the bear state from its current
noise; a BEAR_WAKE_UP notification forces game over. -/
def GameScene.stageBear (s : SceneState) : SceneState :=
  let br := Bear.updateStateBasedOnNoise s.bear
  GameScene.onBearEvents { s with bear := br.1 } br.2

/-- Line 972 plus handler: television.update, while the TV is in the ON
phase, fires TV_NOISE_START each frame; its handler onTVNoiseStart
(lines 608-614) adds noiseLevel * TIMER_UPDATE_INTERVAL / 1000 to bear
and meter unless noise canceling is held — with no immunity check and no
level or power-up multipliers. -/
def GameScene.stageTVEvent (s : SceneState) : SceneState :=
  if s.tv.isOn ∧ s.tv.currentState = TVState.ON ∧ ¬ s.isNoiseCancelActive then
    GameScene.addNoisePair s (s.tv.noiseLevel * TIMER_UPDATE_INTERVAL / 1000)
  else s

/-- Line 977: powerUpManager.update ticks the active power-ups. -/
def GameScene.stageTick (delta : ℚ) (s : SceneState) : SceneState :=
  { s with powerUps := PowerUps.tick s.powerUps delta }

/-- Lines 989-996: while canceling, reduce both accumulators by
NOISE_DECREASE_RATE * delta / 1000 * cancelBoost * levelDecrease. -/
def GameScene.stageCancel (delta : ℚ) (s : SceneState) : SceneState :=
  if s.isNoiseCancelActive then
    GameScene.reduceNoisePair s
      (NOISE_DECREASE_RATE * delta / 1000 *
        PowerUps.getNoiseCancellationMultiplier s.powerUps *
        s.noiseDecreaseMultiplier)
  else s

/-- Lines 999-1006: while the TV isOn flag is set, not canceling, no
immunity: add NOISE_INCREASE_RATE * delta / 1000 * noiseReduction *
levelIncrease to both accumulators. -/
def GameScene.stageTVNoise (delta : ℚ) (s : SceneState) : SceneState :=
  if s.tv.isOn ∧ ¬ s.isNoiseCancelActive ∧
      ¬ PowerUps.hasTemporaryImmunity s.powerUps then
    GameScene.addNoisePair s
      (NOISE_INCREASE_RATE * delta / 1000 *
        PowerUps.getNoiseReductionMultiplier s.powerUps *
        s.noiseIncreaseMultiplier)
  else s

/-- Lines 1009-1017: ambient total > 0, not canceling, no immunity: add
total * delta / 1000 * noiseReduction * levelIncrease to both. -/
def GameScene.stageAmbient (delta : ℚ) (s : SceneState) : SceneState :=
  if 0 < s.ambientTotal ∧ ¬ s.isNoiseCancelActive ∧
      ¬ PowerUps.hasTemporaryImmunity s.powerUps then
    GameScene.addNoisePair s
      (s.ambientTotal * delta / 1000 *
        PowerUps.getNoiseReductionMultiplier s.powerUps *
        s.noiseIncreaseMultiplier)
  else s

/-- GameScene.update (lines 967-1018), one frame with delta
milliseconds, together with the synchronous event handlers it triggers,
in source order. -/
def GameScene.updateFrame (s : SceneState) (delta : ℚ) : SceneState :=
  if s.gameState ≠ GameState.PLAYING then s else
  GameScene.stageAmbient delta
    (GameScene.stageTVNoise delta
      (GameScene.stageCancel delta
        (GameScene.stageTick delta
          (GameScene.stageTVEvent (GameScene.stageBear s)))))

/-- GameScene.updateGameTimer (lines 425-436): every 100 ms while
playing, decrement the countdown; when it reaches ≤ 0, clamp to 0 and
evaluate checkVictoryCondition (lines 793-799): meter level strictly
below WAKE_METER_MAX means victory, otherwise game over. -/
def GameScene.updateGameTimer (s : SceneState) : SceneState :=
  if s.gameState ≠ GameState.PLAYING then s else
  let t := s.gameTimer - TIMER_UPDATE_INTERVAL
  if t ≤ 0 then
    let s' := { s with gameTimer := 0 }
    if s'.noiseMeter.currentLevel < WAKE_METER_MAX then GameScene.victory s'
    else GameScene.gameOver s'
  else
    { s with gameTimer := t }

/-- One frame of the bear driven from outside: the accumulated noise is
set to n, then Bear.updateStateBasedOnNoise runs; the counter counts the
BEAR_WAKE_UP notifications. -/
def Bear.frameStep (acc : BearStateData × ℕ) (n : ℚ) : BearStateData × ℕ :=
  let r := Bear.updateStateBasedOnNoise { acc.1 with currentNoise := n }
  (r.1, acc.2 + if r.2.wakeUp then 1 else 0)

/-- A trace of bear frames with the given noise levels, counting the
emitted BEAR_WAKE_UP notifications. -/
def Bear.runFrames (b : BearStateData) (noises : List ℚ) : BearStateData × ℕ :=
  noises.foldl Bear.frameStep (b, 0)

/-! ## Helper lemmas -/

lemma NoiseMeter.addNoise_fst (s : NoiseMeterState) (a : ℚ) :
    (NoiseMeter.addNoise s a).1
      = { s with currentLevel := min (s.currentLevel + a) s.maxLevel } := rfl

lemma NoiseMeter.reduceNoise_fst (s : NoiseMeterState) (a : ℚ) :
    (NoiseMeter.reduceNoise s a).1
      = { s with currentLevel := max (s.currentLevel - a) 0 } := rfl

lemma NoiseMeter.applyOp_bounds (s : NoiseMeterState) (op : MeterOp)
    (h0 : 0 ≤ s.currentLevel) (h1 : s.currentLevel ≤ s.maxLevel)
    (hm : 0 ≤ s.maxLevel) (hop : op.nonneg) :
    0 ≤ (NoiseMeter.applyOp s op).currentLevel
    ∧ (NoiseMeter.applyOp s op).currentLevel ≤ s.maxLevel
    ∧ (NoiseMeter.applyOp s op).maxLevel = s.maxLevel := by
  cases op with
  | add a =>
      simp only [MeterOp.nonneg] at hop
      exact ⟨le_min (by linarith) hm, min_le_right _ _, rfl⟩
  | reduce a =>
      simp only [MeterOp.nonneg] at hop
      exact ⟨le_max_right _ _, max_le (by linarith) hm, rfl⟩

lemma NoiseMeter.runOps_bounds (ops : List MeterOp) (s : NoiseMeterState)
    (h0 : 0 ≤ s.currentLevel) (h1 : s.currentLevel ≤ s.maxLevel)
    (hm : 0 ≤ s.maxLevel) (h : ∀ op ∈ ops, op.nonneg) :
    0 ≤ (NoiseMeter.runOps s ops).currentLevel
    ∧ (NoiseMeter.runOps s ops).currentLevel ≤ (NoiseMeter.runOps s ops).maxLevel
    ∧ (NoiseMeter.runOps s ops).maxLevel = s.maxLevel := by
  induction ops generalizing s with
  | nil => exact ⟨h0, h1, rfl⟩
  | cons op ops ih =>
      have hop := h op (by simp)
      have hstep := NoiseMeter.applyOp_bounds s op h0 h1 hm hop
      have := ih (NoiseMeter.applyOp s op) hstep.1 (hstep.2.2 ▸ hstep.2.1)
        (hstep.2.2 ▸ hm) (fun o ho => h o (by simp [ho]))
      simpa [NoiseMeter.runOps, hstep.2.2] using this

/-! ## Claims -/

/-- C1: starting from level 0 at round start, any sequence of
addNoise/reduceNoise calls with non-negative amounts keeps the wake
meter's currentLevel within 0 ≤ currentLevel ≤ 100 (maxLevel): addNoise
clamps at maxLevel, reduceNoise clamps at 0. -/
theorem C1_meter_level_bounds (ops : List MeterOp)
    (h : ∀ op ∈ ops, op.nonneg) :
    0 ≤ (NoiseMeter.runOps NoiseMeter.init ops).currentLevel
    ∧ (NoiseMeter.runOps NoiseMeter.init ops).currentLevel ≤ 100 := by
  have := NoiseMeter.runOps_bounds ops NoiseMeter.init (by norm_num [NoiseMeter.init])
    (by norm_num [NoiseMeter.init, WAKE_METER_MAX])
    (by norm_num [NoiseMeter.init, WAKE_METER_MAX]) h
  refine ⟨this.1, ?_⟩
  have hmax : (NoiseMeter.runOps NoiseMeter.init ops).maxLevel = 100 := by
    simpa [NoiseMeter.init, WAKE_METER_MAX] using this.2.2
  exact hmax ▸ this.2.1

/-- Witness for C1 at a concrete run. -/
theorem C1_meter_level_bounds_witness :
    0 ≤ (NoiseMeter.runOps NoiseMeter.init
          [MeterOp.add 70, MeterOp.add 50, MeterOp.reduce 30]).currentLevel
    ∧ (NoiseMeter.runOps NoiseMeter.init
          [MeterOp.add 70, MeterOp.add 50, MeterOp.reduce 30]).currentLevel ≤ 100 :=
  C1_meter_level_bounds [MeterOp.add 70, MeterOp.add 50, MeterOp.reduce 30]
    (by intro op hop; fin_cases hop <;> norm_num [MeterOp.nonneg])

/-- C6: addNoise(amount) sets the level to min(level + amount, 100); a
METER_UPDATE notification is emitted iff the level actually changed; in
particular with the level already at 100 any positive amount leaves the
level at exactly 100 and fires no event. -/
theorem C6_addNoise_spec (s : NoiseMeterState) (amount : ℚ)
    (hmax : s.maxLevel = 100) :
    (NoiseMeter.addNoise s amount).1.currentLevel
        = min (s.currentLevel + amount) 100
    ∧ ((NoiseMeter.addNoise s amount).2.isSome
        ↔ (NoiseMeter.addNoise s amount).1.currentLevel ≠ s.currentLevel)
    ∧ (s.currentLevel = 100 → 0 < amount →
        (NoiseMeter.addNoise s amount).1.currentLevel = 100
        ∧ (NoiseMeter.addNoise s amount).2 = none) := by
  refine ⟨by simp [NoiseMeter.addNoise, hmax], ?_, ?_⟩
  · unfold NoiseMeter.addNoise
    dsimp only
    split <;> simp_all
  · intro hlev hpos
    have hmin : min (s.currentLevel + amount) s.maxLevel = s.currentLevel := by
      rw [hlev, hmax]
      exact min_eq_right (by linarith)
    constructor
    · have h' : (NoiseMeter.addNoise s amount).1.currentLevel
          = min (s.currentLevel + amount) s.maxLevel := rfl
      rw [h', hmin, hlev]
    · simp [NoiseMeter.addNoise, hmin]

/-- Witness for C6: meter at max 100, adding 5 keeps it at 100, no event. -/
theorem C6_addNoise_spec_witness :
    (NoiseMeter.addNoise ⟨100, 100⟩ 5).1.currentLevel = 100
    ∧ (NoiseMeter.addNoise ⟨100, 100⟩ 5).2 = none :=
  (C6_addNoise_spec ⟨100, 100⟩ 5 rfl).2.2 rfl (by norm_num)

/-- C4: the character's tier is a pure function of the wake-meter
percentage alone, with the thresholds of Bear.updateStateBasedOnNoise
(< 50 sleeping, 50 ≤ p < 100 drowsy, ≥ 100 awake), and a
BEAR_STATE_CHANGE notification is emitted iff the newly computed tier
differs from the previous one. -/
theorem C4_tier_thresholds_and_changes (p : ℚ) (b : BearStateData) :
    (p < 50 → Bear.tierFor p = BearState.SLEEPING)
    ∧ (50 ≤ p → p < 100 → Bear.tierFor p = BearState.DROWSY)
    ∧ (100 ≤ p → Bear.tierFor p = BearState.AWAKE)
    ∧ ((Bear.updateStateBasedOnNoise b).2.stateChange.isSome
        ↔ Bear.tierFor b.noisePercentage ≠ b.currentState) := by
  refine ⟨?_, ?_, ?_, ?_⟩
  · intro h
    simp [Bear.tierFor, not_le.mpr h, not_le.mpr (by linarith : p < 100)]
  · intro h1 h2
    simp [Bear.tierFor, h1, not_le.mpr h2]
  · intro h
    simp [Bear.tierFor, h]
  · unfold Bear.updateStateBasedOnNoise
    dsimp only
    split <;> simp_all

/-- Witness for C4 at the three threshold regions. -/
theorem C4_tier_thresholds_witness :
    Bear.tierFor 30 = BearState.SLEEPING
    ∧ Bear.tierFor 70 = BearState.DROWSY
    ∧ Bear.tierFor 120 = BearState.AWAKE :=
  ⟨(C4_tier_thresholds_and_changes 30 Bear.init).1 (by norm_num),
   (C4_tier_thresholds_and_changes 70 Bear.init).2.1 (by norm_num) (by norm_num),
   (C4_tier_thresholds_and_changes 120 Bear.init).2.2.1 (by norm_num)⟩

/-- The TV state after the cycle off → turning-on → on → turn-off
requested (the 300 ms fade-out tween has not completed yet). -/
def tvTurningOffState : TVStateData :=
  Television.run Television.init
    [TVEvent.turnOnCall, TVEvent.turnOnDone, TVEvent.turnOffCall]

/-- C7 counterexample: a reachable TV state whose phase is TURNING_OFF
(not ON) while its noise intensity is 15, not 0 — Television.turnOff
only clears noiseLevel in the tween onComplete, after the TURNING_OFF
window. -/
theorem C7_counterexample :
    Television.Reachable tvTurningOffState
    ∧ tvTurningOffState.currentState = TVState.TURNING_OFF
    ∧ tvTurningOffState.currentState ≠ TVState.ON
    ∧ tvTurningOffState.noiseLevel ≠ 0 := by
  refine ⟨?_, by decide, by decide, by decide⟩
  show Television.Reachable
    (Television.step (Television.step (Television.step Television.init
      TVEvent.turnOnCall) TVEvent.turnOnDone) TVEvent.turnOffCall)
  exact Television.Reachable.step _ _ (Television.Reachable.step _ _
    (Television.Reachable.step _ _ Television.Reachable.init))

lemma Television.step_inv (tv : TVStateData) (e : TVEvent)
    (h : 0 ≤ tv.noiseLevel
      ∧ ((tv.currentState = TVState.OFF ∨ tv.currentState = TVState.TURNING_ON) →
          tv.noiseLevel = 0)
      ∧ ((tv.currentState = TVState.ON ∨ tv.currentState = TVState.TURNING_OFF) →
          tv.noiseLevel = NOISE_INCREASE_RATE)) :
    0 ≤ (Television.step tv e).noiseLevel
    ∧ (((Television.step tv e).currentState = TVState.OFF
        ∨ (Television.step tv e).currentState = TVState.TURNING_ON) →
        (Television.step tv e).noiseLevel = 0)
    ∧ (((Television.step tv e).currentState = TVState.ON
        ∨ (Television.step tv e).currentState = TVState.TURNING_OFF) →
        (Television.step tv e).noiseLevel = NOISE_INCREASE_RATE) := by
  obtain ⟨h0, hOff, hOn⟩ := h
  cases e <;> simp only [Television.step] <;> split_ifs with hg <;>
    refine ⟨?_, ?_, ?_⟩
  · exact h0
  · intro _; exact hOff (Or.inl hg)
  · rintro (hc | hc) <;> simp at hc
  · exact h0
  · exact hOff
  · exact hOn
  · norm_num [NOISE_INCREASE_RATE]
  · rintro (hc | hc) <;> simp at hc
  · intro _; rfl
  · exact h0
  · exact hOff
  · exact hOn
  · exact h0
  · rintro (hc | hc) <;> simp at hc
  · intro _; exact hOn (Or.inl hg)
  · exact h0
  · exact hOff
  · exact hOn
  · exact le_refl 0
  · intro _; rfl
  · rintro (hc | hc) <;> simp at hc
  · exact h0
  · exact hOff
  · exact hOn

/-- C7 amended: in every reachable TV state the intensity is
non-negative, is exactly 0 in the Off and TurningOn phases, and equals
the configured rate (hence is nonzero) in the On and TurningOff phases:
it is cleared only when the turn-off transition completes. -/
theorem C7_intensity_invariant (tv : TVStateData)
    (h : Television.Reachable tv) :
    0 ≤ tv.noiseLevel
    ∧ ((tv.currentState = TVState.OFF ∨ tv.currentState = TVState.TURNING_ON) →
        tv.noiseLevel = 0)
    ∧ ((tv.currentState = TVState.ON ∨ tv.currentState = TVState.TURNING_OFF) →
        tv.noiseLevel = NOISE_INCREASE_RATE) := by
  induction h with
  | init =>
      refine ⟨le_refl 0, fun _ => rfl, fun hc => ?_⟩
      rcases hc with hc | hc <;> simp [Television.init] at hc
  | step tv' e _ ih => exact Television.step_inv tv' e ih

/-- Witness for C7 at the initial (Off) state. -/
theorem C7_intensity_invariant_witness :
    0 ≤ Television.init.noiseLevel
    ∧ ((Television.init.currentState = TVState.OFF
        ∨ Television.init.currentState = TVState.TURNING_ON) →
        Television.init.noiseLevel = 0)
    ∧ ((Television.init.currentState = TVState.ON
        ∨ Television.init.currentState = TVState.TURNING_OFF) →
        Television.init.noiseLevel = NOISE_INCREASE_RATE) :=
  C7_intensity_invariant Television.init Television.Reachable.init

/-- C8 counterexample: the neighbor_tv ambient source of level 4 has a
configured duration of 8000 ms; with the random sample 0 the activation
duration is 7000 ms, below 0.9 * 8000 = 7200 ms, so the duration is not
within ±10% of the configured value. -/
theorem C8_counterexample :
    NoiseSource.activationDuration 8000 0 = 7000
    ∧ ¬ (9/10 * (8000 : ℚ) ≤ NoiseSource.activationDuration 8000 0) := by
  constructor
  · norm_num [NoiseSource.activationDuration]
  · norm_num [NoiseSource.activationDuration]

/-- C8 amended: the sampled activation duration carries a ±1000 ms
absolute jitter, not ±10%: for every configured duration and every
random sample u in [0, 1), the duration lies in
[configured − 1000, configured + 1000). -/
theorem C8_duration_jitter (d u : ℚ) (h0 : 0 ≤ u) (h1 : u < 1) :
    d - 1000 ≤ NoiseSource.activationDuration d u
    ∧ NoiseSource.activationDuration d u < d + 1000 := by
  unfold NoiseSource.activationDuration
  constructor <;> nlinarith

/-- Witness for C8 at duration 8000 and sample 1/2. -/
theorem C8_duration_jitter_witness :
    (8000 : ℚ) - 1000 ≤ NoiseSource.activationDuration 8000 (1/2)
    ∧ NoiseSource.activationDuration 8000 (1/2) < 8000 + 1000 :=
  C8_duration_jitter 8000 (1/2) (by norm_num) (by norm_num)

/-- C9: activatePowerUp(t) returns false and changes nothing (no new
instance, no notification, existing instance untouched) when an
instance of t is already active; otherwise it appends exactly one
ActivePowerUp carrying t's configured duration, returns true, and emits
a POWERUP_ACTIVATED notification. -/
theorem C9_activatePowerUp_spec (st : PowerUpsState) (t : PowerUpType) :
    (st.has t = true → PowerUps.activatePowerUp st t = (false, st, none))
    ∧ (st.has t = false →
        (PowerUps.activatePowerUp st t).1 = true
        ∧ (PowerUps.activatePowerUp st t).2.1.activePowerUps
            = st.activePowerUps
              ++ [(t, ActivePowerUp.mk' t (getPowerUpConfig t))]
        ∧ (ActivePowerUp.mk' t (getPowerUpConfig t)).remainingDuration
            = (getPowerUpConfig t).duration
        ∧ (PowerUps.activatePowerUp st t).2.2
            = some { type := t, duration := (getPowerUpConfig t).duration }) := by
  constructor
  · intro h
    simp [PowerUps.activatePowerUp, h]
  · intro h
    refine ⟨?_, ?_, rfl, ?_⟩ <;> simp [PowerUps.activatePowerUp, h]

/-- Witness for C9: activating SOUND_SHIELD on an empty manager. -/
theorem C9_activatePowerUp_spec_witness :
    (PowerUps.activatePowerUp PowerUps.empty PowerUpType.SOUND_SHIELD).1 = true
    ∧ (PowerUps.activatePowerUp PowerUps.empty PowerUpType.SOUND_SHIELD).2.1.activePowerUps
        = PowerUps.empty.activePowerUps
          ++ [(PowerUpType.SOUND_SHIELD,
               ActivePowerUp.mk' PowerUpType.SOUND_SHIELD
                 (getPowerUpConfig PowerUpType.SOUND_SHIELD))]
    ∧ (ActivePowerUp.mk' PowerUpType.SOUND_SHIELD
         (getPowerUpConfig PowerUpType.SOUND_SHIELD)).remainingDuration
        = (getPowerUpConfig PowerUpType.SOUND_SHIELD).duration
    ∧ (PowerUps.activatePowerUp PowerUps.empty PowerUpType.SOUND_SHIELD).2.2
        = some { type := PowerUpType.SOUND_SHIELD,
                 duration := (getPowerUpConfig PowerUpType.SOUND_SHIELD).duration } :=
  (C9_activatePowerUp_spec PowerUps.empty PowerUpType.SOUND_SHIELD).2 rfl

lemma BearStateData.noisePercentage_of_threshold (b : BearStateData)
    (h : b.wakeThreshold = 100) : b.noisePercentage = b.currentNoise := by
  unfold BearStateData.noisePercentage
  rw [h]
  field_simp

lemma Bear.tierFor_of_ge (n : ℚ) (hn : 100 ≤ n) :
    Bear.tierFor n = BearState.AWAKE := by
  simp [Bear.tierFor, hn]

lemma Bear.update_of_tier_eq (b : BearStateData)
    (h : Bear.tierFor b.noisePercentage = b.currentState) :
    Bear.updateStateBasedOnNoise b = (b, { stateChange := none, wakeUp := false }) := by
  unfold Bear.updateStateBasedOnNoise
  simp [h]

lemma Bear.update_of_tier_ne (b : BearStateData)
    (h : Bear.tierFor b.noisePercentage ≠ b.currentState) :
    Bear.updateStateBasedOnNoise b =
      ({ b with currentState := Bear.tierFor b.noisePercentage },
       { stateChange := some (b.currentState, Bear.tierFor b.noisePercentage),
         wakeUp := if Bear.tierFor b.noisePercentage = BearState.AWAKE then true
                   else false }) := by
  unfold Bear.updateStateBasedOnNoise
  simp [h]

lemma Bear.frameStep_awake (acc : BearStateData × ℕ) (n : ℚ)
    (hst : acc.1.currentState = BearState.AWAKE)
    (hthr : acc.1.wakeThreshold = 100) (hn : 100 ≤ n) :
    (Bear.frameStep acc n).1.currentState = BearState.AWAKE
    ∧ (Bear.frameStep acc n).1.wakeThreshold = 100
    ∧ (Bear.frameStep acc n).2 = acc.2 := by
  have hpct : ({ acc.1 with currentNoise := n } : BearStateData).noisePercentage = n :=
    BearStateData.noisePercentage_of_threshold _ hthr
  have heq : Bear.tierFor (({ acc.1 with currentNoise := n } :
      BearStateData).noisePercentage)
      = ({ acc.1 with currentNoise := n } : BearStateData).currentState := by
    rw [hpct, Bear.tierFor_of_ge n hn]
    exact hst.symm
  have hupd := Bear.update_of_tier_eq _ heq
  simp only [Bear.frameStep, hupd]
  exact ⟨hst, hthr, by simp⟩

lemma Bear.runFrames_awake_aux (ns : List ℚ) (acc : BearStateData × ℕ)
    (hst : acc.1.currentState = BearState.AWAKE)
    (hthr : acc.1.wakeThreshold = 100)
    (hns : ∀ m ∈ ns, 100 ≤ m) :
    (ns.foldl Bear.frameStep acc).2 = acc.2 := by
  induction ns generalizing acc with
  | nil => rfl
  | cons m ms ih =>
      have h := Bear.frameStep_awake acc m hst hthr (hns m (by simp))
      have := ih (Bear.frameStep acc m) h.1 h.2.1 (fun x hx => hns x (by simp [hx]))
      simpa [List.foldl, h.2.2] using this

/-- C5: in a round where the character is not yet Awake and the noise
percentage reaches ≥ 100 and stays there on every subsequent frame, the
BEAR_WAKE_UP notification fires on the entering frame and the whole
trace emits it exactly once. -/
theorem C5_wakeup_exactly_once (b : BearStateData) (n : ℚ) (ns : List ℚ)
    (hb : b.currentState ≠ BearState.AWAKE)
    (hthr : b.wakeThreshold = 100)
    (hn : 100 ≤ n) (hns : ∀ m ∈ ns, 100 ≤ m) :
    (Bear.frameStep (b, 0) n).1.currentState = BearState.AWAKE
    ∧ (Bear.frameStep (b, 0) n).2 = 1
    ∧ (Bear.runFrames b (n :: ns)).2 = 1 := by
  have hpct : ({ b with currentNoise := n } : BearStateData).noisePercentage = n :=
    BearStateData.noisePercentage_of_threshold _ hthr
  have hne : Bear.tierFor (({ b with currentNoise := n } :
      BearStateData).noisePercentage)
      ≠ ({ b with currentNoise := n } : BearStateData).currentState := by
    rw [hpct, Bear.tierFor_of_ge n hn]
    exact fun hc => hb hc.symm
  have hupd := Bear.update_of_tier_ne _ hne
  have hfirst : (Bear.frameStep (b, 0) n).1.currentState = BearState.AWAKE
      ∧ (Bear.frameStep (b, 0) n).1.wakeThreshold = 100
      ∧ (Bear.frameStep (b, 0) n).2 = 1 := by
    simp only [Bear.frameStep, hupd]
    refine ⟨?_, hthr, ?_⟩
    · simp [hpct, Bear.tierFor_of_ge n hn]
    · simp [hpct, Bear.tierFor_of_ge n hn]
  refine ⟨hfirst.1, hfirst.2.2, ?_⟩
  have := Bear.runFrames_awake_aux ns (Bear.frameStep (b, 0) n) hfirst.1
    hfirst.2.1 hns
  simpa [Bear.runFrames, List.foldl, hfirst.2.2] using this

/-- Witness for C5: a sleeping bear with noise 100, 100, 150 over three
frames wakes exactly once. -/
theorem C5_wakeup_exactly_once_witness :
    (Bear.frameStep (Bear.init, 0) 100).1.currentState = BearState.AWAKE
    ∧ (Bear.frameStep (Bear.init, 0) 100).2 = 1
    ∧ (Bear.runFrames Bear.init [100, 100, 150]).2 = 1 :=
  C5_wakeup_exactly_once Bear.init 100 [100, 150]
    (by simp [Bear.init]) (by norm_num [Bear.init, WAKE_METER_MAX])
    (by norm_num) (by intro m hm; fin_cases hm <;> norm_num)

lemma Bear.update_fst_fields (b : BearStateData) :
    (Bear.updateStateBasedOnNoise b).1.currentNoise = b.currentNoise
    ∧ (Bear.updateStateBasedOnNoise b).1.wakeThreshold = b.wakeThreshold := by
  unfold Bear.updateStateBasedOnNoise
  dsimp only
  split <;> exact ⟨rfl, rfl⟩

lemma Bear.addNoise_fst_fields (b : BearStateData) (a : ℚ) :
    (Bear.addNoise b a).1.currentNoise = min (b.currentNoise + a) b.wakeThreshold
    ∧ (Bear.addNoise b a).1.wakeThreshold = b.wakeThreshold := by
  unfold Bear.addNoise
  exact Bear.update_fst_fields _

lemma Bear.reduceNoise_fst_fields (b : BearStateData) (a : ℚ) :
    (Bear.reduceNoise b a).1.currentNoise = max (b.currentNoise - a) 0
    ∧ (Bear.reduceNoise b a).1.wakeThreshold = b.wakeThreshold := by
  unfold Bear.reduceNoise
  exact Bear.update_fst_fields _

lemma NoiseMeter.addNoise_snd_of_ne (s : NoiseMeterState) (a : ℚ)
    (h : min (s.currentLevel + a) s.maxLevel ≠ s.currentLevel) :
    (NoiseMeter.addNoise s a).2
      = some { level := min (s.currentLevel + a) s.maxLevel,
               percentage := min (s.currentLevel + a) s.maxLevel / s.maxLevel * 100,
               isIncreasing := true } := by
  unfold NoiseMeter.addNoise
  simp [NoiseMeterState.percentage, h]

lemma GameScene.onBearEvents_eq (t : SceneState) (ev : BearEvents) :
    ∃ g, GameScene.onBearEvents t ev = { t with gameState := g }
      ∧ (g = t.gameState ∨ g = GameState.GAME_OVER) := by
  unfold GameScene.onBearEvents GameScene.gameOver
  split
  · exact ⟨GameState.GAME_OVER, rfl, Or.inr rfl⟩
  · exact ⟨t.gameState, rfl, Or.inl rfl⟩

lemma GameScene.onMeterUpdate_eq (t : SceneState) (ev : Option MeterUpdateEvent) :
    ∃ g, GameScene.onMeterUpdate t ev = { t with gameState := g }
      ∧ (g = t.gameState ∨ g = GameState.GAME_OVER) := by
  unfold GameScene.onMeterUpdate GameScene.gameOver
  cases ev with
  | none => exact ⟨t.gameState, rfl, Or.inl rfl⟩
  | some e =>
      dsimp only
      split
      · exact ⟨GameState.GAME_OVER, rfl, Or.inr rfl⟩
      · exact ⟨t.gameState, rfl, Or.inl rfl⟩

lemma GameScene.addNoisePair_eq (s : SceneState) (a : ℚ) :
    ∃ g, GameScene.addNoisePair s a =
      { s with bear := (Bear.addNoise s.bear a).1,
               noiseMeter := (NoiseMeter.addNoise s.noiseMeter a).1,
               gameState := g }
      ∧ (g = s.gameState ∨ g = GameState.GAME_OVER) := by
  simp only [GameScene.addNoisePair]
  obtain ⟨g1, hg1, hor1⟩ := GameScene.onBearEvents_eq
    { s with bear := (Bear.addNoise s.bear a).1 } (Bear.addNoise s.bear a).2
  rw [hg1]
  dsimp only
  obtain ⟨g2, hg2, hor2⟩ := GameScene.onMeterUpdate_eq
    { s with bear := (Bear.addNoise s.bear a).1, gameState := g1,
             noiseMeter := (NoiseMeter.addNoise s.noiseMeter a).1 }
    (NoiseMeter.addNoise s.noiseMeter a).2
  rw [hg2]
  refine ⟨g2, rfl, ?_⟩
  dsimp only at hor2
  rcases hor2 with h2 | h2
  · rcases hor1 with h1 | h1
    · exact Or.inl (h2.trans h1)
    · exact Or.inr (h2.trans h1)
  · exact Or.inr h2

lemma GameScene.reduceNoisePair_eq (s : SceneState) (a : ℚ) :
    ∃ g, GameScene.reduceNoisePair s a =
      { s with bear := (Bear.reduceNoise s.bear a).1,
               noiseMeter := (NoiseMeter.reduceNoise s.noiseMeter a).1,
               gameState := g }
      ∧ (g = s.gameState ∨ g = GameState.GAME_OVER) := by
  simp only [GameScene.reduceNoisePair]
  obtain ⟨g1, hg1, hor1⟩ := GameScene.onBearEvents_eq
    { s with bear := (Bear.reduceNoise s.bear a).1 } (Bear.reduceNoise s.bear a).2
  rw [hg1]
  dsimp only
  obtain ⟨g2, hg2, hor2⟩ := GameScene.onMeterUpdate_eq
    { s with bear := (Bear.reduceNoise s.bear a).1, gameState := g1,
             noiseMeter := (NoiseMeter.reduceNoise s.noiseMeter a).1 }
    (NoiseMeter.reduceNoise s.noiseMeter a).2
  rw [hg2]
  refine ⟨g2, rfl, ?_⟩
  dsimp only at hor2
  rcases hor2 with h2 | h2
  · rcases hor1 with h1 | h1
    · exact Or.inl (h2.trans h1)
    · exact Or.inr (h2.trans h1)
  · exact Or.inr h2

lemma GameScene.gs_stageBear (s : SceneState) :
    (GameScene.stageBear s).gameState = s.gameState
    ∨ (GameScene.stageBear s).gameState = GameState.GAME_OVER := by
  simp only [GameScene.stageBear]
  obtain ⟨g, hg, hor⟩ := GameScene.onBearEvents_eq
    { s with bear := (Bear.updateStateBasedOnNoise s.bear).1 }
    (Bear.updateStateBasedOnNoise s.bear).2
  rw [hg]
  dsimp only at hor ⊢
  exact hor

lemma GameScene.gs_stageTVEvent (s : SceneState) :
    (GameScene.stageTVEvent s).gameState = s.gameState
    ∨ (GameScene.stageTVEvent s).gameState = GameState.GAME_OVER := by
  unfold GameScene.stageTVEvent
  split
  · obtain ⟨g, hg, hor⟩ := GameScene.addNoisePair_eq s
      (s.tv.noiseLevel * TIMER_UPDATE_INTERVAL / 1000)
    rw [hg]
    exact hor
  · exact Or.inl rfl

lemma GameScene.gs_stageTick (delta : ℚ) (s : SceneState) :
    (GameScene.stageTick delta s).gameState = s.gameState := rfl

lemma GameScene.gs_stageCancel (delta : ℚ) (s : SceneState) :
    (GameScene.stageCancel delta s).gameState = s.gameState
    ∨ (GameScene.stageCancel delta s).gameState = GameState.GAME_OVER := by
  unfold GameScene.stageCancel
  split
  · obtain ⟨g, hg, hor⟩ := GameScene.reduceNoisePair_eq s
      (NOISE_DECREASE_RATE * delta / 1000 *
        PowerUps.getNoiseCancellationMultiplier s.powerUps *
        s.noiseDecreaseMultiplier)
    rw [hg]
    exact hor
  · exact Or.inl rfl

lemma GameScene.gs_stageTVNoise (delta : ℚ) (s : SceneState) :
    (GameScene.stageTVNoise delta s).gameState = s.gameState
    ∨ (GameScene.stageTVNoise delta s).gameState = GameState.GAME_OVER := by
  unfold GameScene.stageTVNoise
  split
  · obtain ⟨g, hg, hor⟩ := GameScene.addNoisePair_eq s
      (NOISE_INCREASE_RATE * delta / 1000 *
        PowerUps.getNoiseReductionMultiplier s.powerUps *
        s.noiseIncreaseMultiplier)
    rw [hg]
    exact hor
  · exact Or.inl rfl

lemma GameScene.gs_stageAmbient (delta : ℚ) (s : SceneState) :
    (GameScene.stageAmbient delta s).gameState = s.gameState
    ∨ (GameScene.stageAmbient delta s).gameState = GameState.GAME_OVER := by
  unfold GameScene.stageAmbient
  split
  · obtain ⟨g, hg, hor⟩ := GameScene.addNoisePair_eq s
      (s.ambientTotal * delta / 1000 *
        PowerUps.getNoiseReductionMultiplier s.powerUps *
        s.noiseIncreaseMultiplier)
    rw [hg]
    exact hor
  · exact Or.inl rfl

lemma GameScene.gs_updateFrame (s : SceneState) (delta : ℚ) :
    (GameScene.updateFrame s delta).gameState = s.gameState
    ∨ (GameScene.updateFrame s delta).gameState = GameState.GAME_OVER := by
  unfold GameScene.updateFrame
  split
  · exact Or.inl rfl
  · rcases GameScene.gs_stageAmbient delta _ with h5 | h5
    · rw [h5]
      rcases GameScene.gs_stageTVNoise delta _ with h4 | h4
      · rw [h4]
        rcases GameScene.gs_stageCancel delta _ with h3 | h3
        · rw [h3, GameScene.gs_stageTick delta _]
          rcases GameScene.gs_stageTVEvent _ with h1 | h1
          · rw [h1]
            exact GameScene.gs_stageBear s
          · exact Or.inr h1
        · exact Or.inr (by rw [h3])
      · exact Or.inr h4
    · exact Or.inr h5

/-- The coupling invariant behind C10: the bear's accumulator and the
wake meter agree, and both clamp against the same bound 100. -/
def Synced (s : SceneState) : Prop :=
  s.bear.wakeThreshold = 100 ∧ s.noiseMeter.maxLevel = 100
    ∧ s.bear.currentNoise = s.noiseMeter.currentLevel

lemma GameScene.Synced_addNoisePair (s : SceneState) (a : ℚ) (h : Synced s) :
    Synced (GameScene.addNoisePair s a) := by
  obtain ⟨hthr, hmax, heq⟩ := h
  obtain ⟨g, hg, _⟩ := GameScene.addNoisePair_eq s a
  rw [hg]
  refine ⟨(Bear.addNoise_fst_fields s.bear a).2.trans hthr, hmax, ?_⟩
  show (Bear.addNoise s.bear a).1.currentNoise
      = (NoiseMeter.addNoise s.noiseMeter a).1.currentLevel
  have hm : (NoiseMeter.addNoise s.noiseMeter a).1.currentLevel
      = min (s.noiseMeter.currentLevel + a) s.noiseMeter.maxLevel := rfl
  rw [(Bear.addNoise_fst_fields s.bear a).1, hm, hthr, hmax, heq]

lemma GameScene.Synced_reduceNoisePair (s : SceneState) (a : ℚ) (h : Synced s) :
    Synced (GameScene.reduceNoisePair s a) := by
  obtain ⟨hthr, hmax, heq⟩ := h
  obtain ⟨g, hg, _⟩ := GameScene.reduceNoisePair_eq s a
  rw [hg]
  refine ⟨(Bear.reduceNoise_fst_fields s.bear a).2.trans hthr, hmax, ?_⟩
  show (Bear.reduceNoise s.bear a).1.currentNoise
      = (NoiseMeter.reduceNoise s.noiseMeter a).1.currentLevel
  have hm : (NoiseMeter.reduceNoise s.noiseMeter a).1.currentLevel
      = max (s.noiseMeter.currentLevel - a) 0 := rfl
  rw [(Bear.reduceNoise_fst_fields s.bear a).1, hm, heq]

lemma GameScene.Synced_stageBear (s : SceneState) (h : Synced s) :
    Synced (GameScene.stageBear s) := by
  obtain ⟨hthr, hmax, heq⟩ := h
  simp only [GameScene.stageBear]
  obtain ⟨g, hg, _⟩ := GameScene.onBearEvents_eq
    { s with bear := (Bear.updateStateBasedOnNoise s.bear).1 }
    (Bear.updateStateBasedOnNoise s.bear).2
  rw [hg]
  exact ⟨(Bear.update_fst_fields s.bear).2.trans hthr, hmax,
    (Bear.update_fst_fields s.bear).1.trans heq⟩

lemma GameScene.Synced_stageTVEvent (s : SceneState) (h : Synced s) :
    Synced (GameScene.stageTVEvent s) := by
  unfold GameScene.stageTVEvent
  split
  · exact GameScene.Synced_addNoisePair s _ h
  · exact h

lemma GameScene.Synced_stageTick (delta : ℚ) (s : SceneState) (h : Synced s) :
    Synced (GameScene.stageTick delta s) := h

lemma GameScene.Synced_stageCancel (delta : ℚ) (s : SceneState) (h : Synced s) :
    Synced (GameScene.stageCancel delta s) := by
  unfold GameScene.stageCancel
  split
  · exact GameScene.Synced_reduceNoisePair s _ h
  · exact h

lemma GameScene.Synced_stageTVNoise (delta : ℚ) (s : SceneState) (h : Synced s) :
    Synced (GameScene.stageTVNoise delta s) := by
  unfold GameScene.stageTVNoise
  split
  · exact GameScene.Synced_addNoisePair s _ h
  · exact h

lemma GameScene.Synced_stageAmbient (delta : ℚ) (s : SceneState) (h : Synced s) :
    Synced (GameScene.stageAmbient delta s) := by
  unfold GameScene.stageAmbient
  split
  · exact GameScene.Synced_addNoisePair s _ h
  · exact h

/-- C10: within a frame the Bear's internal noise accumulator and the
NoiseMeter's level stay equal: both start at 0 with the same bound 100,
and every per-frame update applies identical clamped add/reduce amounts
to both, so the meter percentage and the percentage driving the bear's
tier never disagree. -/
theorem C10_bear_meter_agree (s : SceneState) (delta : ℚ) (h : Synced s) :
    Synced (GameScene.updateFrame s delta)
    ∧ (GameScene.updateFrame s delta).bear.noisePercentage
        = (GameScene.updateFrame s delta).noiseMeter.percentage
    ∧ Bear.init.currentNoise = NoiseMeter.init.currentLevel
    ∧ Bear.init.wakeThreshold = NoiseMeter.init.maxLevel := by
  have hS : Synced (GameScene.updateFrame s delta) := by
    unfold GameScene.updateFrame
    split
    · exact h
    · exact GameScene.Synced_stageAmbient delta _
        (GameScene.Synced_stageTVNoise delta _
          (GameScene.Synced_stageCancel delta _
            (GameScene.Synced_stageTick delta _
              (GameScene.Synced_stageTVEvent _
                (GameScene.Synced_stageBear _ h)))))
  refine ⟨hS, ?_, rfl, rfl⟩
  obtain ⟨hthr, hmax, heq⟩ := hS
  rw [BearStateData.noisePercentage_of_threshold _ hthr, heq]
  unfold NoiseMeterState.percentage
  rw [hmax]
  field_simp

/-- A plain playing round start used to instantiate frame theorems. -/
def sampleScene : SceneState :=
  { gameState := .PLAYING, gameTimer := 60000, bear := Bear.init,
    noiseMeter := NoiseMeter.init, isNoiseCancelActive := false,
    tv := Television.init, powerUps := PowerUps.empty,
    noiseIncreaseMultiplier := 1, noiseDecreaseMultiplier := 1,
    ambientTotal := 0 }

/-- Witness for C10 on a fresh round and a 16 ms frame. -/
theorem C10_bear_meter_agree_witness :
    Synced (GameScene.updateFrame sampleScene 16)
    ∧ (GameScene.updateFrame sampleScene 16).bear.noisePercentage
        = (GameScene.updateFrame sampleScene 16).noiseMeter.percentage
    ∧ Bear.init.currentNoise = NoiseMeter.init.currentLevel
    ∧ Bear.init.wakeThreshold = NoiseMeter.init.maxLevel :=
  C10_bear_meter_agree sampleScene 16 ⟨rfl, rfl, rfl⟩

/-- C3: (1) an addNoise that carries the meter from below 100 up to the
100 cap forces GAME_OVER through the METER_UPDATE handler, with no
condition on the remaining countdown; (2) the countdown tick reaching
≤ 0 with the meter strictly below 100 yields VICTORY; (3) the countdown
tick yields VICTORY only from a state whose meter is strictly below
100; (4) the per-frame update never produces VICTORY at all. -/
theorem C3_terminal_conditions (s : SceneState) (a delta : ℚ) :
    (s.gameState = GameState.PLAYING → s.noiseMeter.maxLevel = 100 →
      s.noiseMeter.currentLevel < 100 → 100 ≤ s.noiseMeter.currentLevel + a →
      (GameScene.addNoisePair s a).noiseMeter.currentLevel = 100
      ∧ (GameScene.addNoisePair s a).gameState = GameState.GAME_OVER)
    ∧ (s.gameState = GameState.PLAYING → s.gameTimer ≤ TIMER_UPDATE_INTERVAL →
        s.noiseMeter.currentLevel < WAKE_METER_MAX →
        (GameScene.updateGameTimer s).gameState = GameState.VICTORY)
    ∧ ((GameScene.updateGameTimer s).gameState = GameState.VICTORY →
        s.gameState = GameState.VICTORY
        ∨ s.noiseMeter.currentLevel < WAKE_METER_MAX)
    ∧ ((GameScene.updateFrame s delta).gameState = GameState.VICTORY →
        s.gameState = GameState.VICTORY) := by
  refine ⟨?_, ?_, ?_, ?_⟩
  · intro _ hmax hlt hge
    have hmin : min (s.noiseMeter.currentLevel + a) s.noiseMeter.maxLevel = 100 := by
      rw [hmax]
      exact min_eq_right hge
    constructor
    · obtain ⟨g, hg, _⟩ := GameScene.addNoisePair_eq s a
      rw [hg]
      exact hmin
    · simp only [GameScene.addNoisePair]
      obtain ⟨g1, hg1, _⟩ := GameScene.onBearEvents_eq
        { s with bear := (Bear.addNoise s.bear a).1 } (Bear.addNoise s.bear a).2
      rw [hg1]
      dsimp only
      have hne : min (s.noiseMeter.currentLevel + a) s.noiseMeter.maxLevel
          ≠ s.noiseMeter.currentLevel := by
        rw [hmin]
        exact fun hc => absurd hc.symm (ne_of_lt hlt)
      rw [NoiseMeter.addNoise_snd_of_ne s.noiseMeter a hne]
      unfold GameScene.onMeterUpdate
      dsimp only
      rw [if_pos ?_]
      · rfl
      · show min (s.noiseMeter.currentLevel + a) s.noiseMeter.maxLevel
            / s.noiseMeter.maxLevel * 100 ≥ 100
        rw [hmin, hmax]
        norm_num
  · intro hplay htime hlt
    simp only [GameScene.updateGameTimer]
    split_ifs with h1 h2
    · exact absurd hplay h1
    · rfl
    · exact absurd (sub_nonpos.mpr htime) h2
  · intro hvic
    simp only [GameScene.updateGameTimer] at hvic
    by_cases h1 : s.gameState ≠ GameState.PLAYING
    · rw [if_pos h1] at hvic
      exact Or.inl hvic
    · rw [if_neg h1] at hvic
      by_cases h2 : s.gameTimer - TIMER_UPDATE_INTERVAL ≤ 0
      · rw [if_pos h2] at hvic
        by_cases h3 : ({ s with gameTimer := 0 } :
            SceneState).noiseMeter.currentLevel < WAKE_METER_MAX
        · exact Or.inr h3
        · rw [if_neg h3] at hvic
          simp [GameScene.gameOver] at hvic
      · rw [if_neg h2] at hvic
        exact Or.inl hvic
  · intro hvic
    rcases GameScene.gs_updateFrame s delta with h | h
    · exact h.symm.trans hvic
    · exact absurd (h.symm.trans hvic) (by decide)

/-- A mid-round state: meter 50/100, 30 s still on the clock. -/
def c3Scene : SceneState :=
  { sampleScene with
    gameTimer := 30000,
    bear := { currentState := .SLEEPING, wakeThreshold := 100, currentNoise := 50 },
    noiseMeter := { currentLevel := 50, maxLevel := 100 } }

/-- A state whose countdown is about to expire with the meter at 99. -/
def c3TimerScene : SceneState :=
  { sampleScene with
    gameTimer := 100,
    bear := { currentState := .DROWSY, wakeThreshold := 100, currentNoise := 99 },
    noiseMeter := { currentLevel := 99, maxLevel := 100 } }

/-- Witness for C3: a 60-point addNoise at level 50 caps the meter at
100 and forces GAME_OVER with 30 s still remaining; a timer tick at
level 99 yields VICTORY. -/
theorem C3_terminal_conditions_witness :
    ((GameScene.addNoisePair c3Scene 60).noiseMeter.currentLevel = 100
      ∧ (GameScene.addNoisePair c3Scene 60).gameState = GameState.GAME_OVER)
    ∧ (GameScene.updateGameTimer c3TimerScene).gameState = GameState.VICTORY :=
  ⟨(C3_terminal_conditions c3Scene 60 0).1 rfl rfl
      (by norm_num [c3Scene]) (by norm_num [c3Scene]),
   (C3_terminal_conditions c3TimerScene 0 0).2.1 rfl
      (by norm_num [c3TimerScene, sampleScene, TIMER_UPDATE_INTERVAL])
      (by norm_num [c3TimerScene, WAKE_METER_MAX])⟩

/-- The frame identified by C2 / spec Scenario 5: a full-immunity
modifier (SOUND_SHIELD) active, noise canceling off, the TV On at the
configured rate 15, meter at 10, no ambient noise, neutral level
multipliers. -/
def immunityFrameState : SceneState :=
  { gameState := .PLAYING, gameTimer := 30000,
    bear := { currentState := .SLEEPING, wakeThreshold := 100, currentNoise := 10 },
    noiseMeter := { currentLevel := 10, maxLevel := 100 },
    isNoiseCancelActive := false,
    tv := { currentState := .ON, isOn := true, noiseLevel := NOISE_INCREASE_RATE },
    powerUps := { activePowerUps :=
      [(.SOUND_SHIELD,
        ActivePowerUp.mk' .SOUND_SHIELD (getPowerUpConfig .SOUND_SHIELD))] },
    noiseIncreaseMultiplier := 1, noiseDecreaseMultiplier := 1,
    ambientTotal := 0 }

/-- C2 failing-input evaluation: with full immunity active, suppression
off and the TV On, one 16 ms frame still raises the meter from 10 to
11.5 — the TV_NOISE_START handler adds
noiseLevel * TIMER_UPDATE_INTERVAL / 1000 = 1.5 with no immunity check —
so the meter level does change that frame, contradicting the claim and
the spec's Scenario 5 (and the Sound Shield's own "complete immunity"
description in the code). -/
theorem C2_immunity_frame_changes_meter :
    PowerUps.hasTemporaryImmunity immunityFrameState.powerUps = true
    ∧ immunityFrameState.isNoiseCancelActive = false
    ∧ immunityFrameState.tv.currentState = TVState.ON
    ∧ immunityFrameState.noiseMeter.currentLevel = 10
    ∧ (GameScene.updateFrame immunityFrameState 16).noiseMeter.currentLevel = 23/2
    ∧ (GameScene.updateFrame immunityFrameState 16).noiseMeter.currentLevel
        ≠ immunityFrameState.noiseMeter.currentLevel := by
  have hval : (GameScene.updateFrame immunityFrameState 16).noiseMeter.currentLevel
      = 23/2 := by
    norm_num [GameScene.updateFrame, GameScene.stageBear, GameScene.stageTVEvent,
      GameScene.stageTick, GameScene.stageCancel, GameScene.stageTVNoise,
      GameScene.stageAmbient, GameScene.addNoisePair, GameScene.reduceNoisePair,
      GameScene.onBearEvents, GameScene.onMeterUpdate, GameScene.gameOver,
      Bear.updateStateBasedOnNoise, Bear.addNoise, Bear.reduceNoise, Bear.tierFor,
      BearStateData.noisePercentage, NoiseMeter.addNoise, NoiseMeter.reduceNoise,
      NoiseMeterState.percentage, PowerUps.tick, PowerUps.hasTemporaryImmunity,
      PowerUps.getNoiseReductionMultiplier, PowerUps.getNoiseCancellationMultiplier,
      ActivePowerUp.update, ActivePowerUp.mk', getPowerUpConfig,
      immunityFrameState, NOISE_INCREASE_RATE, NOISE_DECREASE_RATE,
      TIMER_UPDATE_INTERVAL, WAKE_METER_MAX]
  refine ⟨rfl, rfl, rfl, rfl, hval, ?_⟩
  rw [hval]
  norm_num [immunityFrameState]

end Snooze
